import Mathlib

/-!
Verification of the productivity-tracker core (data-tracker.ts, main.ts):
a shallow embedding of the delta tracker, bucket store and aggregator,
with theorems about word counting, debouncing, gating, averaging and
peak-bucket selection.

JS `number` values appearing here are integers throughout (word counts,
deltas, millisecond timestamps), so they are embedded as `Nat`/`Int`.
JS objects keyed by strings are embedded either as `String → Option _`
(when only lookup/assignment matter) or as association lists
(`List (String × Int)` for day vectors, whose `Object.entries` order the
code relies on; JS objects preserve insertion order for such keys).
-/

/-! ### Word counting (calculateWordCount) -/

/-- The whitespace characters of the regex class `\s` relevant to this code. -/
def isJsSpace (c : Char) : Bool :=
  c = ' ' || c = '\t' || c = '\n' || c = '\r' || c = '\x0b' || c = '\x0c'

/-- `text.split(/\s+/).filter((w) => w.length > 0).length`: the number of
maximal nonempty runs of non-whitespace characters.  The flag records whether
we are currently inside such a run. -/
def countTokensAux : Bool → List Char → Nat
  | _, [] => 0
  | inTok, c :: rest =>
    if isJsSpace c then countTokensAux false rest
    else (if inTok then 0 else 1) + countTokensAux true rest

/-- Token count of a string (split on whitespace runs, drop empties). -/
def countTokens (s : String) : Nat := countTokensAux false s.data

/-- The closing-delimiter pattern `\n---` of the frontmatter regex. -/
def nlClose : List Char := ['\n', '-', '-', '-']

/-- The opening delimiter `---\n` (the `^---\n` part of the regex). -/
def openDelim : List Char := ['-', '-', '-', '\n']

/-- The lazy `[\s\S]*?\n---` part of `/^---\n[\s\S]*?\n---\n?/`: consume
through the FIRST occurrence of `"\n---"`, returning what follows it, or
`none` when there is no occurrence (regex fails to match). -/
def dropThroughClose : List Char → Option (List Char)
  | [] => none
  | c :: rest =>
    if nlClose.isPrefixOf (c :: rest) then some ((c :: rest).drop 4)
    else dropThroughClose rest

/-- `content.match(/^---\n[\s\S]*?\n---\n?/)`: when the regex matches, drop
the matched prefix (including the optional trailing newline); otherwise
return the content unchanged. -/
def stripFrontmatter (cs : List Char) : List Char :=
  if openDelim.isPrefixOf cs then
    match dropThroughClose (cs.drop 4) with
    | some aft =>
      match aft with
      | '\n' :: t => t
      | _ => aft
    | none => cs
  else cs

/-- `calculateWordCount`: strip the leading frontmatter block if the regex
matches, then count whitespace-separated nonempty tokens. -/
def calculateWordCount (content : String) : Nat :=
  countTokensAux false (stripFrontmatter content.data)

example : calculateWordCount "hello  world" = 2 := by decide
example : calculateWordCount "---\ntitle: x\n---\nbody here" = 2 := by decide
example : calculateWordCount "---\n\n---\n" = 0 := by decide
example : calculateWordCount "---\n---\n" = 2 := by decide
example : calculateWordCount "" = 0 := by decide

/-! ### Data model (types.ts) and clock environment -/

/-- A day's 48-bucket vector: a JS object in insertion order, embedded as an
association list from bucket key (`"HH:00"`/`"HH:30"`) to signed count. -/
abbrev DailyHourData := List (String × Int)

/-- `dayData[bucket]`: first (unique) binding of the key, if any. -/
def dvGet (dv : DailyHourData) (b : String) : Option Int :=
  (dv.find? (fun p => p.1 == b)).map (·.2)

/-- `ProductivityTrackerSettings` from types.ts. -/
structure ProductivityTrackerSettings where
  trackingFolder : String
  lookbackWindow : Nat
  panelCollapsed : Bool
  autoExpandPanel : Bool

/-- `PluginData` from types.ts: the string-keyed mappings become functions
to `Option` (absent key = `none`). -/
structure PluginData where
  dailyData : String → Option DailyHourData
  settings : ProductivityTrackerSettings
  wordCountCache : String → Option Nat
  lastSaveTime : String → Option Int

/-- The slice of Obsidian's `TFile` the tracker reads. -/
structure TFile where
  path : String
  basename : String

/-- The wall clock as observed through the `Date` calls: `dateStr d` is the
`toISOString` date string of today minus `d` calendar days (so `dateStr 0`
is what `getCurrentDateString` returns), `nowMs` is `Date.now()`, and
`nowHour`/`nowMin` are `getHours()`/`getMinutes()` of the current time. -/
structure Env where
  dateStr : Nat → String
  nowMs : Int
  nowHour : Nat
  nowMin : Nat

/-- `getCurrentDateString`: today's `YYYY-MM-DD` string. -/
def getCurrentDateString (env : Env) : String := env.dateStr 0

/-- `i.toString().padStart(2, "0")` for the `Nat` values used here. -/
def pad2 (i : Nat) : String := if i < 10 then "0" ++ toString i else toString i

/-- `getCurrentHourBucket`: `"HH:00"` when minutes < 30, else `"HH:30"`. -/
def getCurrentHourBucket (env : Env) : String :=
  pad2 env.nowHour ++ ":" ++ (if env.nowMin < 30 then "00" else "30")

/-- `getBucketKeys`: the 48 half-hour bucket keys in order. -/
def bucketKeys : List String :=
  (List.range 24).flatMap (fun i => [pad2 i ++ ":00", pad2 i ++ ":30"])

/-- `createEmptyDayData`: every half-hour bucket initialized to 0,
in the same key order as `getBucketKeys`. -/
def createEmptyDayData : DailyHourData :=
  (List.range 24).flatMap (fun i => [(pad2 i ++ ":00", (0 : Int)), (pad2 i ++ ":30", 0)])

example : bucketKeys.length = 48 := by decide
example : createEmptyDayData = bucketKeys.map (fun b => (b, 0)) := by decide

/-! ### Gates (isFileInTrackedFolder, date gate, debounce constant) -/

/-- `trackingFolder.replace(/^\/|\/$/g, "")`: strip one leading and one
trailing slash. -/
def normalizeFolder (s : String) : String :=
  let l := if s.data.head? = some '/' then s.data.tail else s.data
  let l' := if l.getLast? = some '/' then l.dropLast else l
  String.mk l'

/-- `isFileInTrackedFolder`: empty folder setting accepts nothing; otherwise
the path must extend the normalized folder by a `/` or equal it. -/
def isFileInTrackedFolder (file : TFile) (trackingFolder : String) : Bool :=
  if trackingFolder = "" then false
  else
    let n := normalizeFolder trackingFolder
    (n ++ "/").data.isPrefixOf file.path.data || file.path == n

/-- The `/^(\d{4}-\d{2}-\d{2})/` test on the first ten characters. -/
def dateDigitsAtStart : List Char → Bool
  | a :: b :: c :: d :: e :: f :: g :: h :: i :: j :: _ =>
    a.isDigit && b.isDigit && c.isDigit && d.isDigit && e == '-' &&
    f.isDigit && g.isDigit && h == '-' && i.isDigit && j.isDigit
  | _ => false

/-- `getDateFromFile`: the leading `YYYY-MM-DD` of the basename, or `none`. -/
def getDateFromFile (file : TFile) : Option String :=
  if dateDigitsAtStart file.basename.data
  then some (String.mk (file.basename.data.take 10)) else none

/-- `isFileFromToday`: the extracted file date strictly equals today's. -/
def isFileFromToday (env : Env) (file : TFile) : Bool :=
  getDateFromFile file == some (getCurrentDateString env)

/-- Debounce interval in milliseconds. -/
def DEBOUNCE_INTERVAL : Int := 3000

example : isFileInTrackedFolder ⟨"Journal/2024-01-15 Notes.md", "2024-01-15 Notes"⟩ "Journal" = true := by decide
example : isFileInTrackedFolder ⟨"Journaly/x.md", "x"⟩ "Journal" = false := by decide
example : isFileInTrackedFolder ⟨"Journal", "Journal"⟩ "/Journal/" = true := by decide
example : isFileInTrackedFolder ⟨"Journal/a.md", "a"⟩ "" = false := by decide
example : getDateFromFile ⟨"", "2024-01-15 Notes"⟩ = some "2024-01-15" := by decide
example : getDateFromFile ⟨"", "Notes 2024-01-15"⟩ = none := by decide

/-! ### Delta tracker (processFileModification, initializeFileCache) -/

/-- Assignment to a string-keyed JS object field. -/
def upd {α : Type} (f : String → Option α) (k : String) (v : α) : String → Option α :=
  fun x => if x = k then some v else f x

/-- `dailyData[dateString][hourBucket] += delta`.  The bucket key written to
is always present, since `getCurrentHourBucket` produces one of the 48 keys
every stored vector carries (`getHours()` is 0–23). -/
def bumpBucket (dv : DailyHourData) (k : String) (delta : Int) : DailyHourData :=
  dv.map (fun p => if p.1 == k then (p.1, p.2 + delta) else p)

/-- `processFileModification`, with `shouldProcessSave` inlined at its call
site (it both tests the debounce and, on acceptance, stores the new
timestamp).  `readText` stands for `vault.read`; the third component of the
result records whether the persistence callback (`saveCallback`) ran. -/
def processFileModification (env : Env) (readText : String → String)
    (st : PluginData) (file : TFile) :
    Option (Int × Bool) × PluginData × Bool :=
  if !(isFileInTrackedFolder file st.settings.trackingFolder) then (none, st, false)
  else if !(isFileFromToday env file) then (none, st, false)
  else if env.nowMs - ((st.lastSaveTime file.path).getD 0) < DEBOUNCE_INTERVAL then
    (none, st, false)
  else
    let st1 := { st with lastSaveTime := upd st.lastSaveTime file.path env.nowMs }
    let currentWordCount := calculateWordCount (readText file.path)
    let previousWordCount := (st1.wordCountCache file.path).getD 0
    let delta : Int := (currentWordCount : Int) - (previousWordCount : Int)
    let st2 := { st1 with wordCountCache := upd st1.wordCountCache file.path currentWordCount }
    let dateString := getCurrentDateString env
    let hourBucket := getCurrentHourBucket env
    let isFirstSaveOfDay := (st2.dailyData dateString).isNone
    let dayData := (st2.dailyData dateString).getD createEmptyDayData
    let st3 := { st2 with dailyData := upd st2.dailyData dateString (bumpBucket dayData hourBucket delta) }
    (some (delta, isFirstSaveOfDay), st3, true)

/-- `initializeFileCache` (file-open cache warm-up); the `Bool` again
records whether persistence ran (it never does here). -/
def initializeFileCache (env : Env) (readText : String → String)
    (st : PluginData) (file : TFile) : PluginData × Bool :=
  if !(isFileInTrackedFolder file st.settings.trackingFolder) then (st, false)
  else if !(isFileFromToday env file) then (st, false)
  else
    match st.wordCountCache file.path with
    | some _ => (st, false)
    | none =>
      ({ st with wordCountCache := upd st.wordCountCache file.path
                   (calculateWordCount (readText file.path)) }, false)

/-! ### Bucket store reads (getDayData, getTodayData) and reset -/

/-- `getDayData`: `this.data.dailyData[dateString] || null` (pure read). -/
def getDayData (st : PluginData) (dateString : String) : Option DailyHourData :=
  st.dailyData dateString

/-- `getTodayData`: today's vector, or a fresh all-zero vector (pure read;
the store itself is not written). -/
def getTodayData (env : Env) (st : PluginData) : DailyHourData :=
  (st.dailyData (getCurrentDateString env)).getD createEmptyDayData

/-- `clearAllData` from main.ts: empty the three mappings, keep `settings`,
then call `savePluginData` (the `Bool` records that persistence ran). -/
def clearAllData (st : PluginData) : PluginData × Bool :=
  ({ st with dailyData := fun _ => none,
             wordCountCache := fun _ => none,
             lastSaveTime := fun _ => none }, true)

/-! ### Aggregator (getAverageData, findPeakHours) -/

/-- One iteration of the day loop of `getAverageData`: for each bucket key,
when the day's value is defined and nonzero, add it into the running sums
and bump the per-bucket contribution count.  (The inner `for` over
`getBucketKeys` updates each bucket key independently, so it is embedded
pointwise.) -/
def avgStep (env : Env) (st : PluginData)
    (acc : (String → Int) × (String → Nat)) (d : Nat) :
    (String → Int) × (String → Nat) :=
  match st.dailyData (env.dateStr d) with
  | none => acc
  | some dayData =>
    ( fun b => if b ∈ bucketKeys ∧ (dvGet dayData b).getD 0 ≠ 0
               then acc.1 b + (dvGet dayData b).getD 0 else acc.1 b,
      fun b => if b ∈ bucketKeys ∧ (dvGet dayData b).getD 0 ≠ 0
               then acc.2 b + 1 else acc.2 b )

/-- `Math.round` applied to the exact quotient `s / n` (n > 0): JavaScript
rounds half toward +∞, i.e. `⌊s/n + 1/2⌋ = ⌊(2s+n)/(2n)⌋`. -/
def jsRound (s : Int) (n : Nat) : Int := Int.fdiv (2 * s + n) (2 * n)

/-- `getAverageData(days)`: accumulate sums and contribution counts over the
window `d = 0 .. days-1` (date strings `env.dateStr d`), then per bucket key
report `Math.round(sum / count)` when `count > 0` and the untouched
accumulated value (0) otherwise, in `getBucketKeys` order. -/
def getAverageData (env : Env) (st : PluginData) (days : Nat) : DailyHourData :=
  let rc := (List.range days).foldl (avgStep env st) (fun _ => 0, fun _ => 0)
  bucketKeys.map (fun b => (b, if rc.2 b > 0 then jsRound (rc.1 b) (rc.2 b) else rc.1 b))

/-- `bucket.split(":")` at the character level. -/
def splitChar (sep : Char) : List Char → List (List Char)
  | [] => [[]]
  | c :: rest =>
    let r := splitChar sep rest
    if c = sep then [] :: r
    else
      match r with
      | h :: t => (c :: h) :: t
      | [] => [[c]]

/-- `parseInt` on the all-digit strings produced by the bucket keys. -/
def parseDecimal (cs : List Char) : Nat :=
  cs.foldl (fun a c => a * 10 + (c.toNat - '0'.toNat)) 0

/-- `formatBucketLabel`: 12-hour clock label with optional `:30` suffix. -/
def formatBucketLabel (bucket : String) : String :=
  let parts := (splitChar ':' bucket.data).map String.mk
  let hourStr := parts.getD 0 ""
  let minStr := parts.getD 1 ""
  let hour := parseDecimal hourStr.data
  let suffix := if minStr == "30" then ":30" else ""
  if hour = 0 then "12" ++ suffix ++ "am"
  else if hour = 12 then "12" ++ suffix ++ "pm"
  else if hour < 12 then toString hour ++ suffix ++ "am"
  else toString (hour - 12) ++ suffix ++ "pm"

/-- The order of the comparator `(a, b) => b.value - a.value`: `p` may come
before `q` when `q.value ≤ p.value` (descending by value). -/
def peakGE (p q : String × Int) : Prop := q.2 ≤ p.2

instance : DecidableRel peakGE := fun p q => inferInstanceAs (Decidable (q.2 ≤ p.2))

instance : IsTotal (String × Int) peakGE := ⟨fun a b => le_total b.2 a.2⟩

instance : IsTrans (String × Int) peakGE := ⟨fun _ _ _ h1 h2 => le_trans h2 h1⟩

/-- The entry pipeline of `findPeakHours` before label formatting:
`Object.entries(data).filter(v > 0).sort((a,b) => b.value - a.value)
.slice(0, topN)`.  JS `sort` is a stable sort by descending value; it is
embedded as `insertionSort peakGE`, which is likewise stable (each element
is inserted in front of the ties that precede it in the remaining list). -/
def peakEntries (data : DailyHourData) (topN : Nat) : List (String × Int) :=
  ((data.filter (fun p => decide (0 < p.2))).insertionSort peakGE).take topN

/-- `findPeakHours`: the selected entries, formatted. -/
def findPeakHours (data : DailyHourData) (topN : Nat) : List String :=
  (peakEntries data topN).map (fun p => formatBucketLabel p.1)

/-! ### Spec-side definitions for the rounding comparison (claim C1) -/

/-- Modelled from the spec's words (claim C1): "round-half-away-from-zero
(so a mean of -2.5 rounds to -3)" applied to the exact quotient `s / n`. -/
def roundHalfAwayFromZero (s : Int) (n : Nat) : Int :=
  if 0 ≤ s then Int.fdiv (2 * s + n) (2 * n) else -Int.fdiv (2 * (-s) + n) (2 * n)

/-- Modelled from the spec's words (claim C1): the rolling average exactly as
`getAverageData` computes it, except that the mean of each contributing
bucket is rounded half away from zero. -/
def specAverageData (env : Env) (st : PluginData) (days : Nat) : DailyHourData :=
  let rc := (List.range days).foldl (avgStep env st) (fun _ => 0, fun _ => 0)
  bucketKeys.map (fun b =>
    (b, if rc.2 b > 0 then roundHalfAwayFromZero (rc.1 b) (rc.2 b) else rc.1 b))

/-- The values contributing to a bucket `b` over the window `0 .. days-1`:
one entry per day whose stored vector defines `b` with a nonzero value
(absent days and zero/undefined buckets contribute nothing). -/
def windowVals (env : Env) (st : PluginData) (days : Nat) (b : String) : List Int :=
  (List.range days).filterMap (fun d =>
    (st.dailyData (env.dateStr d)).bind (fun dayData =>
      if (dvGet dayData b).getD 0 ≠ 0 then some ((dvGet dayData b).getD 0) else none))

example : roundHalfAwayFromZero (-5) 2 = -3 := by decide
example : jsRound (-5) 2 = -2 := by decide
example : jsRound 5 2 = 3 := by decide
example : roundHalfAwayFromZero 5 2 = 3 := by decide

example : formatBucketLabel "00:00" = "12am" := by decide
example : formatBucketLabel "09:30" = "9:30am" := by decide
example : formatBucketLabel "12:00" = "12pm" := by decide
example : formatBucketLabel "14:30" = "2:30pm" := by decide
example : findPeakHours [("09:00", 50), ("09:30", 0), ("14:00", 20)] 3 = ["9am", "2pm"] := by decide

def c1Store : String → Option DailyHourData :=
  fun ds =>
    if ds = "2024-01-15" then some (bumpBucket createEmptyDayData "09:00" (-2))
    else if ds = "2024-01-14" then some (bumpBucket createEmptyDayData "09:00" (-3))
    else none

def c1Env : Env :=
  { dateStr := fun d => if d = 0 then "2024-01-15" else "2024-01-14",
    nowMs := 0, nowHour := 9, nowMin := 0 }

def c1Data : PluginData :=
  { dailyData := c1Store,
    settings := { trackingFolder := "Journal", lookbackWindow := 7,
                  panelCollapsed := false, autoExpandPanel := true },
    wordCountCache := fun _ => none, lastSaveTime := fun _ => none }

example : dvGet (getAverageData c1Env c1Data 2) "09:00" = some (-2) := by decide
example : dvGet (specAverageData c1Env c1Data 2) "09:00" = some (-3) := by decide

/-! ### Claim theorems -/

/-- C5: a save of a path arriving within `DEBOUNCE_INTERVAL` (3000 ms) of the
last accepted save of that same path is dropped: the result is the
not-applicable `none`, the entire state — buckets, word-count cache and the
per-path debounce timestamp — is returned unchanged, and persistence is not
invoked.  (The stored `lastSaveTime` is written only on acceptance, so it is
a genuine rate limiter.) -/
theorem c5_debounce_drop (env : Env) (readText : String → String)
    (st : PluginData) (file : TFile)
    (h : env.nowMs - ((st.lastSaveTime file.path).getD 0) < DEBOUNCE_INTERVAL) :
    processFileModification env readText st file = (none, st, false) := by
  unfold processFileModification
  by_cases h1 : isFileInTrackedFolder file st.settings.trackingFolder
  · by_cases h2 : isFileFromToday env file
    · simp [h1, h2, h]
    · simp [h1, h2]
  · simp [h1]

def c5Env : Env :=
  { dateStr := fun _ => "2024-01-15", nowMs := 2000, nowHour := 9, nowMin := 0 }

def c5File : TFile := ⟨"Journal/2024-01-15.md", "2024-01-15"⟩

def c5Data : PluginData :=
  { dailyData := fun _ => none,
    settings := ⟨"Journal", 7, false, true⟩,
    wordCountCache := fun _ => none,
    lastSaveTime := fun p => if p = "Journal/2024-01-15.md" then some 1000 else none }

/-- Witness for C5: a save at t = 2000 ms, 1000 ms after the accepted save at
t = 1000 ms of the same path, is dropped without any state change. -/
theorem c5_debounce_drop_witness :
    (c5Env.nowMs - ((c5Data.lastSaveTime c5File.path).getD 0) < DEBOUNCE_INTERVAL) ∧
    processFileModification c5Env (fun _ => "one two three") c5Data c5File =
      (none, c5Data, false) :=
  ⟨by decide, c5_debounce_drop c5Env (fun _ => "one two three") c5Data c5File (by decide)⟩

/-- C6: a save of a file whose base name does not start with today's date is
a complete no-op — not-applicable result, identical state (no bucket, cache
or debounce-timestamp change) and no persistence call — whatever the
tracking-folder and debounce situation is. -/
theorem c6_not_today_noop (env : Env) (readText : String → String)
    (st : PluginData) (file : TFile)
    (h : isFileFromToday env file = false) :
    processFileModification env readText st file = (none, st, false) := by
  unfold processFileModification
  by_cases h1 : isFileInTrackedFolder file st.settings.trackingFolder
  · simp [h1, h]
  · simp [h1]

def c6Env : Env :=
  { dateStr := fun _ => "2024-01-15", nowMs := 10 ^ 12, nowHour := 9, nowMin := 0 }

def c6File : TFile := ⟨"Journal/2024-01-14.md", "2024-01-14"⟩

/-- Witness for C6: a file dated yesterday, inside the tracking folder and
far past any debounce window, still produces a no-op. -/
theorem c6_not_today_noop_witness :
    isFileFromToday c6Env c6File = false ∧
    processFileModification c6Env (fun _ => "one two three") c5Data c6File =
      (none, c5Data, false) :=
  ⟨by decide, c6_not_today_noop c6Env (fun _ => "one two three") c5Data c6File (by decide)⟩

/-- C8: the reset operation empties the date→vector mapping, the word-count
cache and the last-save timestamps, leaves every settings field unchanged,
and invokes persistence. -/
theorem c8_clear_all_data (st : PluginData) :
    (clearAllData st).1.dailyData = (fun _ => none) ∧
    (clearAllData st).1.wordCountCache = (fun _ => none) ∧
    (clearAllData st).1.lastSaveTime = (fun _ => none) ∧
    (clearAllData st).1.settings.trackingFolder = st.settings.trackingFolder ∧
    (clearAllData st).1.settings.lookbackWindow = st.settings.lookbackWindow ∧
    (clearAllData st).1.settings.panelCollapsed = st.settings.panelCollapsed ∧
    (clearAllData st).1.settings.autoExpandPanel = st.settings.autoExpandPanel ∧
    (clearAllData st).2 = true :=
  ⟨rfl, rfl, rfl, rfl, rfl, rfl, rfl, rfl⟩

/-- C10: the cache warm-up on file open never persists, never touches the
daily buckets, timestamps or settings; when any gate fails or a cached count
already exists it changes nothing at all; and the only possible change is
seeding the cache at the file's own path with the file's current count. -/
theorem c10_cache_warmup_frame (env : Env) (readText : String → String)
    (st : PluginData) (file : TFile) :
    (initializeFileCache env readText st file).2 = false ∧
    (initializeFileCache env readText st file).1.dailyData = st.dailyData ∧
    (initializeFileCache env readText st file).1.lastSaveTime = st.lastSaveTime ∧
    (initializeFileCache env readText st file).1.settings = st.settings ∧
    (isFileInTrackedFolder file st.settings.trackingFolder = false →
      (initializeFileCache env readText st file).1 = st) ∧
    (isFileFromToday env file = false →
      (initializeFileCache env readText st file).1 = st) ∧
    ((st.wordCountCache file.path).isSome = true →
      (initializeFileCache env readText st file).1 = st) ∧
    ((initializeFileCache env readText st file).1.wordCountCache = st.wordCountCache ∨
      (st.wordCountCache file.path = none ∧
        (initializeFileCache env readText st file).1.wordCountCache =
          upd st.wordCountCache file.path (calculateWordCount (readText file.path)))) := by
  unfold initializeFileCache
  by_cases h1 : isFileInTrackedFolder file st.settings.trackingFolder
  · by_cases h2 : isFileFromToday env file
    · cases hc : st.wordCountCache file.path with
      | some c => simp [h1, h2, hc]
      | none => simp [h1, h2, hc]
    · simp [h1, h2]
  · simp [h1]

def c10File : TFile := ⟨"Journal/2024-01-15.md", "2024-01-15"⟩

/-- Witness for C10: warming up an uncached in-folder today file seeds only
the cache and does not persist. -/
theorem c10_cache_warmup_frame_witness :
    (initializeFileCache c5Env (fun _ => "a b") c5Data c10File).2 = false ∧
    (initializeFileCache c5Env (fun _ => "a b") c5Data c10File).1.dailyData = c5Data.dailyData ∧
    (initializeFileCache c5Env (fun _ => "a b") c5Data c10File).1.lastSaveTime = c5Data.lastSaveTime ∧
    (initializeFileCache c5Env (fun _ => "a b") c5Data c10File).1.settings = c5Data.settings ∧
    (isFileInTrackedFolder c10File c5Data.settings.trackingFolder = false →
      (initializeFileCache c5Env (fun _ => "a b") c5Data c10File).1 = c5Data) ∧
    (isFileFromToday c5Env c10File = false →
      (initializeFileCache c5Env (fun _ => "a b") c5Data c10File).1 = c5Data) ∧
    ((c5Data.wordCountCache c10File.path).isSome = true →
      (initializeFileCache c5Env (fun _ => "a b") c5Data c10File).1 = c5Data) ∧
    ((initializeFileCache c5Env (fun _ => "a b") c5Data c10File).1.wordCountCache = c5Data.wordCountCache ∨
      (c5Data.wordCountCache c10File.path = none ∧
        (initializeFileCache c5Env (fun _ => "a b") c5Data c10File).1.wordCountCache =
          upd c5Data.wordCountCache c10File.path (calculateWordCount "a b"))) :=
  c10_cache_warmup_frame c5Env (fun _ => "a b") c5Data c10File

def c3Data : PluginData :=
  { dailyData := fun _ => none,
    settings := ⟨"Journal", 7, false, true⟩,
    wordCountCache := fun _ => none,
    lastSaveTime := fun _ => none }

/-- Counterexample to C3: with no entry stored for "2024-01-15", `getDayData`
returns `none` (JS `null`), not the all-zero day vector the claim asserts. -/
theorem c3_counterexample :
    getDayData c3Data "2024-01-15" = none ∧
    getDayData c3Data "2024-01-15" ≠ some createEmptyDayData :=
  ⟨rfl, by simp [getDayData, c3Data]⟩

/-- C3 as amended: reads are non-mutating (they are functions of the state
that return no modified state), but only `getTodayData` substitutes the
all-zero vector for an absent day; `getDayData` returns `null` (`none`). -/
theorem c3_absent_day_reads (st : PluginData) (env : Env) (ds : String)
    (h : st.dailyData ds = none)
    (h0 : st.dailyData (getCurrentDateString env) = none) :
    getDayData st ds = none ∧ getTodayData env st = createEmptyDayData := by
  refine ⟨h, ?_⟩
  simp [getTodayData, h0]

/-- Witness for C3 (amended): on the empty store, `getDayData` yields `none`
and `getTodayData` yields the all-zero vector. -/
theorem c3_absent_day_reads_witness :
    c3Data.dailyData "2024-01-15" = none ∧
    c3Data.dailyData (getCurrentDateString c5Env) = none ∧
    (getDayData c3Data "2024-01-15" = none ∧
      getTodayData c5Env c3Data = createEmptyDayData) :=
  ⟨rfl, rfl, c3_absent_day_reads c3Data c5Env "2024-01-15" rfl rfl⟩

/-- `bumpBucket` rewrites a value in place and never changes the key list. -/
theorem bumpBucket_keys (dv : DailyHourData) (k : String) (delta : Int) :
    (bumpBucket dv k delta).map Prod.fst = dv.map Prod.fst := by
  simp only [bumpBucket, List.map_map]
  apply List.map_congr_left
  intro p _
  simp only [Function.comp_apply]
  split <;> rfl

theorem createEmptyDayData_keys : createEmptyDayData.map Prod.fst = bucketKeys := by decide

/-- Every stored day vector carries exactly the 48 bucket keys, in order. -/
def storeWellKeyed (dd : String → Option DailyHourData) : Prop :=
  ∀ ds dv, dd ds = some dv → dv.map Prod.fst = bucketKeys

/-- In the all-gates-pass case, `processFileModification` returns the
computed delta together with the first-save flag, and the state with the
timestamp, cache and today's bucket vector updated; persistence runs. -/
theorem processFileModification_accept (env : Env) (readText : String → String)
    (st : PluginData) (file : TFile)
    (h1 : isFileInTrackedFolder file st.settings.trackingFolder = true)
    (h2 : isFileFromToday env file = true)
    (h3 : ¬ env.nowMs - ((st.lastSaveTime file.path).getD 0) < DEBOUNCE_INTERVAL) :
    processFileModification env readText st file =
      (some ((calculateWordCount (readText file.path) : Int) -
               ((st.wordCountCache file.path).getD 0 : Int),
             (st.dailyData (getCurrentDateString env)).isNone),
       { st with
           lastSaveTime := upd st.lastSaveTime file.path env.nowMs,
           wordCountCache := upd st.wordCountCache file.path
             (calculateWordCount (readText file.path)),
           dailyData := upd st.dailyData (getCurrentDateString env)
             (bumpBucket
               ((st.dailyData (getCurrentDateString env)).getD createEmptyDayData)
               (getCurrentHourBucket env)
               ((calculateWordCount (readText file.path) : Int) -
                 ((st.wordCountCache file.path).getD 0 : Int))) },
       true) := by
  simp [processFileModification, h1, h2, h3]

/-- When any of the three gates rejects, nothing happens at all. -/
theorem processFileModification_reject (env : Env) (readText : String → String)
    (st : PluginData) (file : TFile)
    (h : isFileInTrackedFolder file st.settings.trackingFolder = false ∨
         isFileFromToday env file = false ∨
         env.nowMs - ((st.lastSaveTime file.path).getD 0) < DEBOUNCE_INTERVAL) :
    processFileModification env readText st file = (none, st, false) := by
  unfold processFileModification
  rcases h with h | h | h
  · simp [h]
  · cases h1 : isFileInTrackedFolder file st.settings.trackingFolder <;> simp [h, h1]
  · cases h1 : isFileInTrackedFolder file st.settings.trackingFolder <;>
      cases h2 : isFileFromToday env file <;> simp [h, h1, h2]

/-- C7: processing a save preserves the all-48-keys shape of every stored
vector; today's vector is created exactly when no entry existed (and that
event is what the returned first-save flag reports); a created vector is the
all-zero vector with only the current bucket then accumulated; and no other
date's entry is created or changed. -/
theorem c7_bucket_vector_invariant (env : Env) (readText : String → String)
    (st : PluginData) (file : TFile)
    (hInv : storeWellKeyed st.dailyData) :
    storeWellKeyed (processFileModification env readText st file).2.1.dailyData ∧
    (∀ delta fs, (processFileModification env readText st file).1 = some (delta, fs) →
      ((fs = true ↔ st.dailyData (getCurrentDateString env) = none) ∧
       (st.dailyData (getCurrentDateString env) = none →
         (processFileModification env readText st file).2.1.dailyData
             (getCurrentDateString env) =
           some (bumpBucket createEmptyDayData (getCurrentHourBucket env) delta)))) ∧
    (∀ ds, ds ≠ getCurrentDateString env →
      (processFileModification env readText st file).2.1.dailyData ds =
        st.dailyData ds) := by
  by_cases h1 : isFileInTrackedFolder file st.settings.trackingFolder = true
  rotate_left
  · rw [processFileModification_reject env readText st file
      (Or.inl (Bool.eq_false_iff.mpr h1))]
    exact ⟨hInv, fun delta fs h => by simp at h, fun ds _ => rfl⟩
  by_cases h2 : isFileFromToday env file = true
  rotate_left
  · rw [processFileModification_reject env readText st file
      (Or.inr (Or.inl (Bool.eq_false_iff.mpr h2)))]
    exact ⟨hInv, fun delta fs h => by simp at h, fun ds _ => rfl⟩
  by_cases h3 : env.nowMs - ((st.lastSaveTime file.path).getD 0) < DEBOUNCE_INTERVAL
  · rw [processFileModification_reject env readText st file (Or.inr (Or.inr h3))]
    exact ⟨hInv, fun delta fs h => by simp at h, fun ds _ => rfl⟩
  rw [processFileModification_accept env readText st file h1 h2 h3]
  refine ⟨?_, ?_, ?_⟩
  · intro ds dv h
    simp only [upd] at h
    by_cases hds : ds = getCurrentDateString env
    · rw [if_pos hds] at h
      cases h' : st.dailyData (getCurrentDateString env) with
      | some dv0 =>
        have hk := hInv (getCurrentDateString env) dv0 h'
        rw [h'] at h
        simp only [Option.getD_some, Option.some.injEq] at h
        rw [← h, bumpBucket_keys, hk]
      | none =>
        rw [h'] at h
        simp only [Option.getD_none, Option.some.injEq] at h
        rw [← h, bumpBucket_keys, createEmptyDayData_keys]
    · rw [if_neg hds] at h
      exact hInv ds dv h
  · intro delta fs h
    simp only [Option.some.injEq, Prod.mk.injEq] at h
    obtain ⟨hd, hf⟩ := h
    constructor
    · rw [← hf, Option.isNone_iff_eq_none]
    · intro hnone
      simp [upd, hnone, ← hd]
  · intro ds hds
    simp [upd, hds]

/-- Witness for C7: on the empty (trivially well-keyed) store, an accepted
save creates today's vector from all-zero and reports first-save. -/
theorem c7_bucket_vector_invariant_witness :
    storeWellKeyed c5Data.dailyData ∧
    (storeWellKeyed (processFileModification c6Env (fun _ => "a b c") c5Data c5File).2.1.dailyData ∧
     (∀ delta fs,
        (processFileModification c6Env (fun _ => "a b c") c5Data c5File).1 = some (delta, fs) →
        ((fs = true ↔ c5Data.dailyData (getCurrentDateString c6Env) = none) ∧
         (c5Data.dailyData (getCurrentDateString c6Env) = none →
           (processFileModification c6Env (fun _ => "a b c") c5Data c5File).2.1.dailyData
               (getCurrentDateString c6Env) =
             some (bumpBucket createEmptyDayData (getCurrentHourBucket c6Env) delta)))) ∧
     (∀ ds, ds ≠ getCurrentDateString c6Env →
        (processFileModification c6Env (fun _ => "a b c") c5Data c5File).2.1.dailyData ds =
          c5Data.dailyData ds)) :=
  ⟨fun _ _ h => Option.noConfusion h,
   c7_bucket_vector_invariant c6Env (fun _ => "a b c") c5Data c5File
     (fun _ _ h => Option.noConfusion h)⟩

/-! ### Aggregator lemmas -/

theorem dvGet_cons_self (k : String) (v : Int) (t : DailyHourData) :
    dvGet ((k, v) :: t) k = some v := by
  unfold dvGet
  rw [List.find?_cons_of_pos _ (by simp)]
  rfl

theorem dvGet_cons_ne (k k' : String) (v : Int) (t : DailyHourData) (h : k ≠ k') :
    dvGet ((k, v) :: t) k' = dvGet t k' := by
  unfold dvGet
  rw [List.find?_cons_of_neg _ (by simp [h])]

/-- Reading a key out of a keyed `map` image. -/
theorem dvGet_map_mem (ks : List String) (f : String → Int) (b : String)
    (hb : b ∈ ks) :
    dvGet (ks.map (fun k => (k, f k))) b = some (f b) := by
  induction ks with
  | nil => cases hb
  | cons k t ih =>
    rw [List.map_cons]
    by_cases h : k = b
    · subst h
      exact dvGet_cons_self k (f k) (t.map (fun k => (k, f k)))
    · rw [dvGet_cons_ne k b (f k) _ h]
      rcases List.mem_cons.mp hb with h' | h'
      · exact absurd h'.symm h
      · exact ih h'

/-- Rebuilding an association list from its own key list and lookups. -/
theorem map_dvGet_of_keys (dv : DailyHourData) (ks : List String)
    (hk : dv.map Prod.fst = ks) (hnd : ks.Nodup) :
    ks.map (fun k => (k, (dvGet dv k).getD 0)) = dv := by
  induction dv generalizing ks with
  | nil =>
    rw [← hk]
    rfl
  | cons p t ih =>
    obtain ⟨k, v⟩ := p
    rw [← hk]
    rw [← hk] at hnd
    simp only [List.map_cons] at hnd ⊢
    have hknot : k ∉ t.map Prod.fst := (List.nodup_cons.mp hnd).1
    have hnd' : (t.map Prod.fst).Nodup := (List.nodup_cons.mp hnd).2
    rw [dvGet_cons_self]
    simp only [Option.getD_some]
    congr 1
    rw [List.map_congr_left (fun k' hk' => by
      rw [dvGet_cons_ne k k' v t (fun he => hknot (he ▸ hk'))])]
    exact ih (t.map Prod.fst) rfl hnd'

theorem bucketKeys_nodup : bucketKeys.Nodup := by decide

/-- `Math.round(s / 1) = s`. -/
theorem jsRound_one (s : Int) : jsRound s 1 = s := by
  unfold jsRound
  rw [Int.fdiv_eq_ediv _ (by norm_num)]
  omega

/-- The day loop of `getAverageData`, read at one bucket key: the running
sum and count are the sum and length of that bucket's contributing values
over the window. -/
theorem avg_fold_spec (env : Env) (st : PluginData) (b : String)
    (hb : b ∈ bucketKeys) (days : Nat) :
    ((List.range days).foldl (avgStep env st) (fun _ => 0, fun _ => 0)).1 b =
      (windowVals env st days b).sum ∧
    ((List.range days).foldl (avgStep env st) (fun _ => 0, fun _ => 0)).2 b =
      (windowVals env st days b).length := by
  induction days with
  | zero => simp [windowVals]
  | succ n ih =>
    unfold windowVals at ih ⊢
    rw [List.range_succ, List.foldl_append, List.filterMap_append]
    simp only [List.foldl_cons, List.foldl_nil, List.filterMap_cons,
      List.filterMap_nil]
    cases hd : st.dailyData (env.dateStr n) with
    | none =>
      simp only [avgStep, hd, Option.none_bind, List.append_nil]
      exact ih
    | some dayData =>
      by_cases hv : (dvGet dayData b).getD 0 ≠ 0
      · simp only [avgStep, hd, Option.some_bind, if_pos hv, if_pos (And.intro hb hv),
          List.sum_append, List.length_append, List.sum_cons, List.sum_nil,
          List.length_cons, List.length_nil]
        exact ⟨by rw [ih.1]; ring, by rw [ih.2]⟩
      · rw [not_not] at hv
        simp only [avgStep, hd, Option.some_bind, hv, ne_eq, not_true_eq_false,
          and_false, if_false, List.append_nil]
        exact ih

/-- The per-bucket reading of `getAverageData`: `Math.round(sum / count)`
over the contributing days, 0 when no day contributed. -/
theorem getAverageData_bucket (env : Env) (st : PluginData)
    (days : Nat) (b : String) (hb : b ∈ bucketKeys) :
    dvGet (getAverageData env st days) b =
      some (if (windowVals env st days b).length = 0 then 0
            else jsRound (windowVals env st days b).sum
                   (windowVals env st days b).length) := by
  simp only [getAverageData]
  rw [dvGet_map_mem bucketKeys _ b hb]
  obtain ⟨hs, hc⟩ := avg_fold_spec env st b hb days
  rw [hs, hc]
  rcases Nat.eq_zero_or_pos (windowVals env st days b).length with h0 | hpos
  · rw [if_neg (by omega), if_pos h0]
    rw [List.length_eq_zero.mp h0]
    rfl
  · rw [if_pos hpos, if_neg (by omega)]

/-- C1 as amended: per bucket of the window, the rolling average reports
`Math.round(sum / count)` over the days whose stored value for that bucket
is defined and nonzero, and 0 when no day contributed; the rounding is
JavaScript's `Math.round`, i.e. round half toward +∞ (`jsRound`), not round
half away from zero. -/
theorem c1_rolling_average_rounds_half_up (env : Env) (st : PluginData)
    (days : Nat) (b : String) (hb : b ∈ bucketKeys) :
    dvGet (getAverageData env st days) b =
      some (if (windowVals env st days b).length = 0 then 0
            else jsRound (windowVals env st days b).sum
                   (windowVals env st days b).length) :=
  getAverageData_bucket env st days b hb

/-- Counterexample to C1 as stated: over a 2-day window whose "09:00" values
are -2 and -3 (sum -5, count 2, exact mean -2.5), the code's `Math.round`
yields -2 while the claimed round-half-away-from-zero yields -3. -/
theorem c1_counterexample :
    windowVals c1Env c1Data 2 "09:00" = [-2, -3] ∧
    dvGet (getAverageData c1Env c1Data 2) "09:00" = some (-2) ∧
    dvGet (specAverageData c1Env c1Data 2) "09:00" = some (-3) ∧
    dvGet (getAverageData c1Env c1Data 2) "09:00" ≠
      dvGet (specAverageData c1Env c1Data 2) "09:00" := by decide

/-- Witness for C1 (amended): the "09:00" bucket of the same 2-day window
evaluates to `jsRound (-5) 2 = -2`. -/
theorem c1_rolling_average_rounds_half_up_witness :
    "09:00" ∈ bucketKeys ∧
    dvGet (getAverageData c1Env c1Data 2) "09:00" =
      some (if (windowVals c1Env c1Data 2 "09:00").length = 0 then 0
            else jsRound (windowVals c1Env c1Data 2 "09:00").sum
                   (windowVals c1Env c1Data 2 "09:00").length) :=
  ⟨by decide, c1_rolling_average_rounds_half_up c1Env c1Data 2 "09:00" (by decide)⟩


/-- Keyed association lists with the same nodup key list and the same
lookups are equal. -/
theorem dv_ext (l1 l2 : DailyHourData) (ks : List String)
    (h1 : l1.map Prod.fst = ks) (h2 : l2.map Prod.fst = ks) (hnd : ks.Nodup)
    (h : ∀ k ∈ ks, dvGet l1 k = dvGet l2 k) : l1 = l2 := by
  rw [← map_dvGet_of_keys l1 ks h1 hnd, ← map_dvGet_of_keys l2 ks h2 hnd]
  exact List.map_congr_left (fun k hk => by rw [h k hk])

theorem keyed_map_fst (ks : List String) (f : String → Int) :
    (ks.map (fun k => (k, f k))).map Prod.fst = ks := by
  induction ks with
  | nil => rfl
  | cons k t ih => simp [ih]

/-- The average vector carries exactly the bucket keys, in order. -/
theorem getAverageData_keys (env : Env) (st : PluginData) (days : Nat) :
    (getAverageData env st days).map Prod.fst = bucketKeys := by
  simp only [getAverageData]
  exact keyed_map_fst bucketKeys _

theorem dvGet_createEmptyDayData (b : String) (hb : b ∈ bucketKeys) :
    dvGet createEmptyDayData b = some 0 := by
  rw [(by decide : createEmptyDayData = bucketKeys.map (fun b => (b, (0 : Int))))]
  exact dvGet_map_mem bucketKeys (fun _ => 0) b hb

/-- A lookup of a carried key, rewritten through the key list. -/
theorem dvGet_of_keys_mem (dv : DailyHourData) (b : String)
    (hk : dv.map Prod.fst = bucketKeys) (hb : b ∈ bucketKeys) :
    dvGet dv b = some ((dvGet dv b).getD 0) := by
  conv_lhs => rw [← map_dvGet_of_keys dv bucketKeys hk bucketKeys_nodup]
  rw [dvGet_map_mem bucketKeys _ b hb]

/-- The single-day window values: the day's stored value when defined and
nonzero, else nothing. -/
theorem windowVals_one (env : Env) (st : PluginData) (b : String) :
    windowVals env st 1 b =
      match st.dailyData (env.dateStr 0) with
      | none => []
      | some dv => if (dvGet dv b).getD 0 ≠ 0 then [(dvGet dv b).getD 0] else [] := by
  unfold windowVals
  rw [show List.range 1 = [0] by decide]
  cases hd : st.dailyData (env.dateStr 0) with
  | none => simp [hd]
  | some dv =>
    by_cases hv : (dvGet dv b).getD 0 ≠ 0
    · simp [hd, hv]
    · rw [not_not] at hv
      simp [hd, hv]

/-- C9: over a 1-day window the rolling average is today's vector exactly —
each nonzero bucket is its own average (count 1), each zero bucket reports 0,
and an absent day yields the all-zero vector — provided today's stored
vector (if any) carries the 48 bucket keys, as every vector the code stores
does. -/
theorem c9_one_day_average (env : Env) (st : PluginData)
    (h : ∀ dv, st.dailyData (env.dateStr 0) = some dv →
          dv.map Prod.fst = bucketKeys) :
    getAverageData env st 1 = getTodayData env st := by
  have htoday : (getTodayData env st).map Prod.fst = bucketKeys := by
    unfold getTodayData getCurrentDateString
    cases hd : st.dailyData (env.dateStr 0) with
    | none => simpa using createEmptyDayData_keys
    | some dv => simpa using h dv hd
  refine dv_ext _ _ bucketKeys (getAverageData_keys env st 1) htoday
    bucketKeys_nodup (fun b hb => ?_)
  rw [getAverageData_bucket env st 1 b hb, windowVals_one env st b]
  unfold getTodayData getCurrentDateString
  cases hd : st.dailyData (env.dateStr 0) with
  | none =>
    simp only [Option.getD_none]
    rw [dvGet_createEmptyDayData b hb]
    rfl
  | some dv =>
    have hkeys := h dv hd
    simp only [hd, Option.getD_some]
    by_cases hv : (dvGet dv b).getD 0 ≠ 0
    · rw [if_pos hv]
      simp only [List.length_cons, List.length_nil, List.sum_cons, List.sum_nil,
        Nat.zero_add, add_zero, jsRound_one]
      simp only [Nat.one_ne_zero, if_false]
      exact (dvGet_of_keys_mem dv b hkeys hb).symm
    · rw [if_neg hv]
      rw [not_not] at hv
      simp only [List.length_nil, if_pos rfl]
      rw [← hv]
      exact (dvGet_of_keys_mem dv b hkeys hb).symm

def c9Data : PluginData :=
  { dailyData := fun _ => some createEmptyDayData,
    settings := ⟨"Journal", 7, false, true⟩,
    wordCountCache := fun _ => none,
    lastSaveTime := fun _ => none }

/-- Witness for C9: on a store holding the all-zero vector for every date,
the 1-day average equals today's vector. -/
theorem c9_one_day_average_witness :
    (∀ dv, c9Data.dailyData (c5Env.dateStr 0) = some dv →
      dv.map Prod.fst = bucketKeys) ∧
    getAverageData c5Env c9Data 1 = getTodayData c5Env c9Data := by
  have hyp : ∀ dv, c9Data.dailyData (c5Env.dateStr 0) = some dv →
      dv.map Prod.fst = bucketKeys := by
    intro dv hdv
    have h' := Option.some.inj hdv
    rw [← h']
    exact createEmptyDayData_keys
  exact ⟨hyp, c9_one_day_average c5Env c9Data hyp⟩

/-- C4 as amended: peak selection returns at most `topN` labels, selects only
strictly positive buckets (fewer than `topN` rather than padding), and the
selected entries are in descending (nonincreasing) order of value — ties are
possible and stay in their original stable order, so the order is not
strictly descending in general. -/
theorem c4_peak_selection (data : DailyHourData) (topN : Nat) :
    (findPeakHours data topN).length ≤ topN ∧
    (∀ p ∈ peakEntries data topN, 0 < p.2) ∧
    (peakEntries data topN).Pairwise peakGE := by
  refine ⟨?_, ?_, ?_⟩
  · simp only [findPeakHours, List.length_map, peakEntries]
    exact List.length_take_le _ _
  · intro p hp
    have h1 : p ∈ (data.filter (fun p => decide (0 < p.2))).insertionSort peakGE :=
      List.take_subset _ _ hp
    have h2 : p ∈ data.filter (fun p => decide (0 < p.2)) :=
      (List.perm_insertionSort peakGE _).mem_iff.mp h1
    exact of_decide_eq_true (List.mem_filter.mp h2).2
  · exact List.Pairwise.sublist (List.take_sublist _ _)
      (List.sorted_insertionSort peakGE _)

/-- Counterexample to C4 as stated: two buckets tied at value 5 are both
selected, and the selected values 5, 5 are not strictly descending. -/
theorem c4_counterexample :
    findPeakHours [("09:00", 5), ("10:00", 5)] 2 = ["9am", "10am"] ∧
    peakEntries [("09:00", 5), ("10:00", 5)] 2 = [("09:00", 5), ("10:00", 5)] ∧
    ¬ (peakEntries [("09:00", 5), ("10:00", 5)] 2).Pairwise
        (fun p q : String × Int => q.2 < p.2) := by decide

/-! ### Frontmatter stripping (claim C2) -/

/-- A block body is clean when no closing delimiter `"\n---"` occurs inside
it (the lazy `[\s\S]*?` stops at the first closing delimiter, so a body
containing one would end the match early). -/
def cleanBody : List Char → Bool
  | [] => true
  | c :: rest => !(nlClose.isPrefixOf (c :: rest)) && cleanBody rest

/-- No occurrence of `"\n---"` can straddle the end of the body: the
appended closing delimiter starts with `'\n'`, while every proper suffix of
the pattern starts with `'-'`. -/
theorem noCross (c : Char) (rest t : List Char)
    (h : nlClose.isPrefixOf (c :: rest) = false) :
    nlClose.isPrefixOf (c :: (rest ++ '\n' :: '-' :: '-' :: '-' :: t)) = false := by
  match rest with
  | [] =>
    simp [nlClose, List.isPrefixOf, show ('-' == '\n') = false from rfl]
  | [r1] =>
    simp [nlClose, List.isPrefixOf, show ('-' == '\n') = false from rfl]
  | [r1, r2] =>
    simp [nlClose, List.isPrefixOf, show ('-' == '\n') = false from rfl]
  | r1 :: r2 :: r3 :: rs =>
    simpa [nlClose, List.isPrefixOf] using h

/-- Scanning `body ++ "\n---" ++ t` for the first `"\n---"`, with no
occurrence inside `body`, finds exactly the appended one and returns `t`. -/
theorem dropThroughClose_append (body t : List Char) (h : cleanBody body = true) :
    dropThroughClose (body ++ '\n' :: '-' :: '-' :: '-' :: t) = some t := by
  induction body with
  | nil =>
    simp [dropThroughClose, nlClose, List.isPrefixOf]
  | cons c rest ih =>
    rw [cleanBody, Bool.and_eq_true] at h
    obtain ⟨hpre, hrest⟩ := h
    rw [Bool.not_eq_true'] at hpre
    rw [List.cons_append]
    rw [dropThroughClose]
    rw [noCross c rest t hpre]
    simp only [Bool.false_eq_true, if_false]
    exact ih hrest

/-- Stripping `/^---\n[\s\S]*?\n---\n?/` from `"---\n" ++ body ++ "\n---" ++ t`
leaves `t`, less one leading newline (which the `\n?` consumes). -/
theorem stripFrontmatter_block (body t : List Char) (h : cleanBody body = true) :
    stripFrontmatter ('-' :: '-' :: '-' :: '\n' ::
        (body ++ '\n' :: '-' :: '-' :: '-' :: t)) =
      match t with
      | '\n' :: t' => t'
      | _ => t := by
  unfold stripFrontmatter
  rw [if_pos (by simp [openDelim, List.isPrefixOf])]
  rw [show ('-' :: '-' :: '-' :: '\n' ::
      (body ++ '\n' :: '-' :: '-' :: '-' :: t)).drop 4 =
      body ++ '\n' :: '-' :: '-' :: '-' :: t from rfl]
  rw [dropThroughClose_append body t h]

/-- C2 as amended: for a leading block `"---\n" ++ body ++ "\n---"` whose
closing delimiter stands on its own newline (and whose body — possibly the
empty string — contains no closing delimiter of its own), no token of the
block and neither delimiter line is counted: the count is exactly the token
count of what follows the block, and a file that is nothing but such a block
counts as 0 words (the count is a `Nat`, hence always ≥ 0). -/
theorem c2_wordcount_frontmatter (body rest : String)
    (h : cleanBody body.data = true) :
    calculateWordCount ("---\n" ++ body ++ "\n---\n" ++ rest) = countTokens rest ∧
    calculateWordCount ("---\n" ++ body ++ "\n---") = 0 := by
  constructor
  · unfold calculateWordCount
    have hdata : ("---\n" ++ body ++ "\n---\n" ++ rest).data =
        '-' :: '-' :: '-' :: '\n' ::
          (body.data ++ '\n' :: '-' :: '-' :: '-' :: ('\n' :: rest.data)) := by
      simp only [String.data_append,
        show ("---\n" : String).data = ['-', '-', '-', '\n'] from rfl,
        show ("\n---\n" : String).data = ['\n', '-', '-', '-', '\n'] from rfl]
      simp [List.append_assoc]
    rw [hdata, stripFrontmatter_block body.data ('\n' :: rest.data) h]
    rfl
  · unfold calculateWordCount
    have hdata : ("---\n" ++ body ++ "\n---").data =
        '-' :: '-' :: '-' :: '\n' ::
          (body.data ++ '\n' :: '-' :: '-' :: '-' :: ([] : List Char)) := by
      simp only [String.data_append,
        show ("---\n" : String).data = ['-', '-', '-', '\n'] from rfl,
        show ("\n---" : String).data = ['\n', '-', '-', '-'] from rfl]
      simp [List.append_assoc]
    rw [hdata, stripFrontmatter_block body.data [] h]
    rfl

/-- Counterexample to C2 as stated: `"---\n---\n"` is a first line `---`
followed by a closing `---` line with an empty (zero-line) block body, yet
the regex needs a newline of its own before the closing delimiter, fails to
match, and both delimiter lines are counted: 2 words, not 0. -/
theorem c2_counterexample :
    calculateWordCount "---\n---\n" = 2 ∧ calculateWordCount "---\n---\n" ≠ 0 := by
  decide

/-- Witness for C2 (amended): an empty-string body — `"---\n\n---\n"` plus
trailing text — is stripped, and alone counts as 0. -/
theorem c2_wordcount_frontmatter_witness :
    cleanBody ("" : String).data = true ∧
    (calculateWordCount ("---\n" ++ "" ++ "\n---\n" ++ "hello world") =
        countTokens "hello world" ∧
      calculateWordCount ("---\n" ++ "" ++ "\n---") = 0) :=
  ⟨by decide, c2_wordcount_frontmatter "" "hello world" (by decide)⟩
